import Mathlib

/-!
Verification of the notebook `docs/docs/how-tos/streaming-specific-nodes.ipynb`.

The notebook defines a helper `_set_env` that conditionally prompts for an
environment variable, a `State` TypedDict with three string fields, two node
functions `write_joke` and `write_poem` that each call `model.invoke` once,
a graph built from `START` edges to both nodes, and a streaming loop that
prints token contents filtered by the `langgraph_node` metadata field.

This file gives a shallow embedding of that code and proves the claims of
the specification against it.  External effects are embedded explicitly:
the process environment is a map `String → Option String`, the model is an
oracle function whose calls are recorded in a trace list, and the stream is
a list of message/metadata pairs.
-/

/-- The process environment `os.environ`: a map from variable names to
values; `none` means the variable is absent. -/
def Env : Type := String → Option String

/-- Python truthiness of `os.environ.get(var)`: both `None` (variable
absent) and the empty string are falsy; any non-empty string is truthy. -/
def truthy : Option String → Bool
  | none => false
  | some s => s != ""

/-- The assignment `os.environ[var] = v`. -/
def envSet (env : Env) (var v : String) : Env :=
  fun k => if k = var then some v else env k

/-- Embedding of the notebook's helper

```python
def _set_env(var: str):
    if not os.environ.get(var):
        os.environ[var] = getpass.getpass(f"\x7bvar\x7d: ")
```

`prompted` is the value `getpass.getpass` would return if the prompt runs.
The result is the final environment paired with a flag recording whether
the interactive prompt ran. -/
def set_env (env : Env) (var : String) (prompted : String) : Env × Bool :=
  if truthy (env var) then (env, false) else (envSet env var prompted, true)

/-- The keys declared by the notebook's `State` TypedDict:

```python
class State(TypedDict):
    topic: str
    joke: str
    poem: str
```

All three fields are declared with type `str`. -/
inductive StateKey where
  | topic
  | joke
  | poem
deriving DecidableEq, BEq, Repr

/-- A runtime `State` value: a partial map from the declared keys to string
values (TypedDict instances, and the update dicts returned by nodes, may
omit keys). -/
def State : Type := StateKey → Option String

/-- A response returned by `model.invoke`; only its `.content` attribute is
used by the notebook. -/
structure ModelResponse where
  content : String

/-- Embedding of

```python
def write_joke(state: State):
    topic = state["topic"]
    joke_response = model.invoke(
        [\x7b"role": "user", "content": f"Write a joke about \x7btopic\x7d"\x7d]
    )
    return \x7b"joke": joke_response.content\x7d
```

`invoke` is the external `model.invoke`, applied to the user message
content.  The result is `none` when `state["topic"]` raises `KeyError`;
otherwise it is the trace of prompts sent to the model (the list of
`model.invoke` calls made, in order) paired with the returned update
dict. -/
def write_joke (invoke : String → ModelResponse) (state : State) :
    Option (List String × List (StateKey × String)) :=
  match state StateKey.topic with
  | none => none
  | some topic =>
    let joke_response := invoke ("Write a joke about " ++ topic)
    some (["Write a joke about " ++ topic],
      [(StateKey.joke, joke_response.content)])

/-- Embedding of

```python
def write_poem(state: State):
    topic = state["topic"]
    poem_response = model.invoke(
        [\x7b"role": "user", "content": f"Write a short poem about \x7btopic\x7d"\x7d]
    )
    return \x7b"poem": poem_response.content\x7d
```

with the same conventions as `write_joke`. -/
def write_poem (invoke : String → ModelResponse) (state : State) :
    Option (List String × List (StateKey × String)) :=
  match state StateKey.topic with
  | none => none
  | some topic =>
    let poem_response := invoke ("Write a short poem about " ++ topic)
    some (["Write a short poem about " ++ topic],
      [(StateKey.poem, poem_response.content)])

/-- The engine merging a node's returned update dict into the current
state: updated keys take the new value, all other keys keep their old
value. -/
def applyUpdate (st : State) (upd : List (StateKey × String)) : State :=
  fun k =>
    match upd.lookup k with
    | some v => some v
    | none => st k

/-- Modelled from the spec: the external graph-construction API
("node/edge registration, compile"), which is not under `src/`, embedded as
a recorder of the registered node names and declared edges. -/
structure StateGraphBuilder where
  nodes : List String
  edges : List (String × String)

/-- Modelled from the spec: the start marker `START` exported by the
external library. -/
def START : String := "__start__"

/-- Modelled from the spec: `.add_node(f)` registers a node under the
function's name. -/
def StateGraphBuilder.add_node (g : StateGraphBuilder) (name : String) :
    StateGraphBuilder :=
  { g with nodes := g.nodes ++ [name] }

/-- Modelled from the spec: `.add_edge(src, dst)` declares one edge. -/
def StateGraphBuilder.add_edge (g : StateGraphBuilder) (src dst : String) :
    StateGraphBuilder :=
  { g with edges := g.edges ++ [(src, dst)] }

/-- Modelled from the spec: `.compile()` packages the declared builder into
a compiled graph. -/
structure CompiledGraph where
  builder : StateGraphBuilder

/-- Modelled from the spec: the `compile` call. -/
def StateGraphBuilder.compile (g : StateGraphBuilder) : CompiledGraph :=
  ⟨g⟩

/-- The notebook's graph construction before `.compile()`:

```python
StateGraph(State)
    .add_node(write_joke)
    .add_node(write_poem)
    .add_edge(START, "write_joke")
    .add_edge(START, "write_poem")
``` -/
def graph_builder : StateGraphBuilder :=
  ((((StateGraphBuilder.mk [] []).add_node
    "write_joke").add_node
    "write_poem").add_edge
    START "write_joke").add_edge
    START "write_poem"

/-- The compiled graph bound to `graph` in the notebook. -/
def graph : CompiledGraph :=
  graph_builder.compile

/-- One `(msg, metadata)` pair yielded by
`graph.stream(..., stream_mode="messages")`: the message's `.content`
string and the metadata mapping.  The key identifying the producing node,
when present, is `"langgraph_node"`. -/
structure StreamItem where
  content : String
  metadata : List (String × String)

/-- Embedding of the notebook's streaming loop

```python
for msg, metadata in graph.stream(..., stream_mode="messages"):
    if msg.content and metadata["langgraph_node"] == "write_poem":
        print(msg.content, end="|", flush=True)
```

over a given list of yielded pairs.  The result is the list of contents
printed, in order, paired with `true` when the loop ran to completion and
`false` when `metadata["langgraph_node"]` raised `KeyError` (the loop stops
there; contents printed before the error are kept).  Python's `and`
short-circuits, so the metadata is only indexed when `msg.content` is
truthy. -/
def stream_filter_loop : List StreamItem → List String × Bool
  | [] => ([], true)
  | item :: rest =>
    if item.content = "" then
      stream_filter_loop rest
    else
      match item.metadata.lookup "langgraph_node" with
      | none => ([], false)
      | some node =>
        let r := stream_filter_loop rest
        if node = "write_poem" then (item.content :: r.fst, r.snd) else r

/-- The declarative condition under which the loop prints an item: its
content is non-empty and its metadata maps `"langgraph_node"` to
`"write_poem"`. -/
def printsItem (i : StreamItem) : Bool :=
  i.content != "" && (i.metadata.lookup "langgraph_node" == some "write_poem")

/-- A streamed pair whose metadata names `write_poem` but whose content is
empty. -/
def poemEmptyItem : StreamItem :=
  ⟨"", [("langgraph_node", "write_poem")]⟩

/-- An environment in which `OPENAI_API_KEY` is set to the empty string and
every other variable is absent. -/
def envEmptyKey : Env :=
  fun k => if k = "OPENAI_API_KEY" then some "" else none

/-- An environment in which `OPENAI_API_KEY` is set to the non-empty value
`"sk-live"` and every other variable is absent. -/
def envSetKey : Env :=
  fun k => if k = "OPENAI_API_KEY" then some "sk-live" else none

/-- A concrete model oracle that echoes the prompt as the response
content. -/
def invokeEcho : String → ModelResponse :=
  fun p => ⟨"response to " ++ p⟩

/-- A concrete input state containing only the key `topic`. -/
def stTopicOnly : State :=
  fun k => if k = StateKey.topic then some "cats" else none

/-- Counterexample to claim C2 as stated: with `OPENAI_API_KEY` already
present in the environment (set to the empty string), `_set_env`
nevertheless prompts and overwrites the existing value, so the claim's
"reads it without prompting and returns with the environment unchanged"
fails for an already-set variable. -/
theorem set_env_c2_counterexample :
    envEmptyKey "OPENAI_API_KEY" = some ""
    ∧ (set_env envEmptyKey "OPENAI_API_KEY" "sk-new").snd = true
    ∧ (set_env envEmptyKey "OPENAI_API_KEY" "sk-new").fst "OPENAI_API_KEY"
        = some "sk-new" :=
  ⟨by decide, by decide, by decide⟩

/-- Claim C2 (amended): `_set_env(var)` prompts exactly when
`os.environ.get(var)` is falsy, that is when the variable is unset or set
to the empty string, storing the prompted value under `var`; when the
variable is set to a non-empty value, it is read without prompting and the
environment is returned unchanged. -/
theorem set_env_prompt_iff (env : Env) (var v : String) :
    ((env var = none ∨ env var = some "") →
      set_env env var v = (envSet env var v, true))
    ∧ ∀ s, env var = some s → s ≠ "" → set_env env var v = (env, false) := by
  constructor
  · intro h
    have ht : truthy (env var) = false := by
      rcases h with h | h <;> simp [truthy, h]
    simp [set_env, ht]
  · intro s hs hne
    have ht : truthy (env var) = true := by simp [truthy, hs, hne]
    simp [set_env, ht]

/-- Witness for `set_env_prompt_iff`: with `OPENAI_API_KEY` set to the
non-empty value `"sk-live"`, no prompt runs and the environment is
unchanged. -/
theorem set_env_prompt_iff_witness :
    set_env envSetKey "OPENAI_API_KEY" "sk-new" = (envSetKey, false) :=
  (set_env_prompt_iff envSetKey "OPENAI_API_KEY" "sk-new").2 "sk-live"
    (by decide) (by decide)

/-- Claim C8: because `_set_env` tests the truthiness of
`os.environ.get(var)` rather than the variable's presence, it prompts also
when the variable is set to the empty string, and the prompted value
overwrites the existing empty value. -/
theorem set_env_prompts_on_empty (env : Env) (var v : String)
    (h : env var = some "") :
    (set_env env var v).snd = true ∧ (set_env env var v).fst var = some v := by
  have ht : truthy (env var) = false := by simp [truthy, h]
  constructor <;> simp [set_env, ht, envSet]

/-- Witness for `set_env_prompts_on_empty` at a concrete environment with
`OPENAI_API_KEY` set to the empty string. -/
theorem set_env_prompts_on_empty_witness :
    (set_env envEmptyKey "OPENAI_API_KEY" "sk-prompted").snd = true
    ∧ (set_env envEmptyKey "OPENAI_API_KEY" "sk-prompted").fst "OPENAI_API_KEY"
        = some "sk-prompted" :=
  set_env_prompts_on_empty envEmptyKey "OPENAI_API_KEY" "sk-prompted" (by decide)

/-- Claim C10: after `_set_env(var)` returns, the variable `var` is present
in the environment, whether or not it was set beforehand, and no variable
other than `var` is modified by the call. -/
theorem set_env_sets_var_frame (env : Env) (var v : String) :
    ((set_env env var v).fst var).isSome = true
    ∧ ∀ k, k ≠ var → (set_env env var v).fst k = env k := by
  cases hv : truthy (env var) with
  | false =>
    constructor
    · simp [set_env, hv, envSet]
    · intro k hk
      simp [set_env, hv, envSet, hk]
  | true =>
    constructor
    · cases he : env var with
      | none => rw [he] at hv; simp [truthy] at hv
      | some s => rw [he] at hv; simp [set_env, he, hv]
    · intro k hk
      simp [set_env, hv]

/-- Witness for `set_env_sets_var_frame` at a concrete environment,
instantiating the frame condition at the distinct variable `"HOME"`. -/
theorem set_env_sets_var_frame_witness :
    ((set_env envEmptyKey "OPENAI_API_KEY" "sk-new").fst "OPENAI_API_KEY").isSome
        = true
    ∧ (set_env envEmptyKey "OPENAI_API_KEY" "sk-new").fst "HOME"
        = envEmptyKey "HOME" :=
  ⟨(set_env_sets_var_frame envEmptyKey "OPENAI_API_KEY" "sk-new").1,
   (set_env_sets_var_frame envEmptyKey "OPENAI_API_KEY" "sk-new").2 "HOME"
     (by decide)⟩

/-- Claim C4: the graph construction registers exactly the two nodes
`write_joke` and `write_poem` and declares exactly the two edges from the
start marker `START` to them, and no other edges, before compiling. -/
theorem graph_two_nodes_two_edges :
    graph_builder.nodes = ["write_joke", "write_poem"]
    ∧ graph_builder.edges = [(START, "write_joke"), (START, "write_poem")]
    ∧ graph.builder = graph_builder :=
  ⟨rfl, rfl, rfl⟩

/-- Claim C6: the state record type declares exactly three fields, named
`topic`, `joke` and `poem` — the key type `StateKey` has exactly these
three mutually distinct inhabitants — and a state value assigns (at most)
a string to each key, with no further invariant. -/
theorem state_exactly_three_string_fields :
    (∀ k : StateKey, k = StateKey.topic ∨ k = StateKey.joke ∨ k = StateKey.poem)
    ∧ (StateKey.topic ≠ StateKey.joke ∧ StateKey.topic ≠ StateKey.poem
        ∧ StateKey.joke ≠ StateKey.poem)
    ∧ State = (StateKey → Option String) := by
  refine ⟨fun k => ?_, ⟨by decide, by decide, by decide⟩, rfl⟩
  cases k with
  | topic => exact Or.inl rfl
  | joke => exact Or.inr (Or.inl rfl)
  | poem => exact Or.inr (Or.inr rfl)

/-- A concrete stream: one item from each node, both carrying the
`langgraph_node` metadata key and non-empty content. -/
def streamW : List StreamItem :=
  [⟨"Once upon a time", [("langgraph_node", "write_joke")]⟩,
   ⟨"In shadows soft", [("langgraph_node", "write_poem")]⟩]

/-- Claim C3: for every input state containing the key `topic`, each of
`write_joke` and `write_poem` makes exactly one model invocation — the
call trace is the one-element list holding the single prompt — and returns
an update consisting of the single field assignment (`joke` resp. `poem`)
whose value is the content of that one model response. -/
theorem nodes_one_call_one_field (invoke : String → ModelResponse)
    (st : State) (t : String) (h : st StateKey.topic = some t) :
    write_joke invoke st =
        some (["Write a joke about " ++ t],
          [(StateKey.joke, (invoke ("Write a joke about " ++ t)).content)])
    ∧ write_poem invoke st =
        some (["Write a short poem about " ++ t],
          [(StateKey.poem, (invoke ("Write a short poem about " ++ t)).content)]) := by
  constructor
  · simp [write_joke, h]
  · simp [write_poem, h]

/-- Witness for `nodes_one_call_one_field` at a concrete oracle and a
concrete state whose topic is `"cats"`. -/
theorem nodes_one_call_one_field_witness :
    write_joke invokeEcho stTopicOnly =
        some (["Write a joke about " ++ "cats"],
          [(StateKey.joke, (invokeEcho ("Write a joke about " ++ "cats")).content)])
    ∧ write_poem invokeEcho stTopicOnly =
        some (["Write a short poem about " ++ "cats"],
          [(StateKey.poem,
            (invokeEcho ("Write a short poem about " ++ "cats")).content)]) :=
  nodes_one_call_one_field invokeEcho stTopicOnly "cats" (by decide)

/-- Claim C5: whenever `write_joke` returns an update it mentions only the
key `joke`, and whenever `write_poem` returns an update it mentions only
the key `poem`; merging either update into the state leaves the other two
fields unchanged.  The input state itself is never modified: the nodes
return fresh update dicts and `applyUpdate` builds a new state. -/
theorem nodes_update_frame (invoke : String → ModelResponse) (st : State)
    (trj : List String) (updj : List (StateKey × String))
    (trp : List String) (updp : List (StateKey × String))
    (hj : write_joke invoke st = some (trj, updj))
    (hp : write_poem invoke st = some (trp, updp)) :
    (updj.map Prod.fst = [StateKey.joke]
      ∧ applyUpdate st updj StateKey.topic = st StateKey.topic
      ∧ applyUpdate st updj StateKey.poem = st StateKey.poem)
    ∧ (updp.map Prod.fst = [StateKey.poem]
      ∧ applyUpdate st updp StateKey.topic = st StateKey.topic
      ∧ applyUpdate st updp StateKey.joke = st StateKey.joke) := by
  cases he : st StateKey.topic with
  | none =>
    rw [write_joke, he] at hj
    exact absurd hj (by simp)
  | some t =>
    rw [write_joke, he] at hj
    rw [write_poem, he] at hp
    simp only [Option.some.injEq, Prod.mk.injEq] at hj hp
    obtain ⟨-, hj2⟩ := hj
    obtain ⟨-, hp2⟩ := hp
    subst hj2
    subst hp2
    exact ⟨⟨rfl, he, rfl⟩, ⟨rfl, he, rfl⟩⟩

/-- Witness for `nodes_update_frame` at a concrete oracle and state. -/
theorem nodes_update_frame_witness :
    ([(StateKey.joke, (invokeEcho ("Write a joke about " ++ "cats")).content)].map
          Prod.fst = [StateKey.joke]
      ∧ applyUpdate stTopicOnly
          [(StateKey.joke, (invokeEcho ("Write a joke about " ++ "cats")).content)]
          StateKey.topic = stTopicOnly StateKey.topic
      ∧ applyUpdate stTopicOnly
          [(StateKey.joke, (invokeEcho ("Write a joke about " ++ "cats")).content)]
          StateKey.poem = stTopicOnly StateKey.poem)
    ∧ ([(StateKey.poem,
          (invokeEcho ("Write a short poem about " ++ "cats")).content)].map
          Prod.fst = [StateKey.poem]
      ∧ applyUpdate stTopicOnly
          [(StateKey.poem,
            (invokeEcho ("Write a short poem about " ++ "cats")).content)]
          StateKey.topic = stTopicOnly StateKey.topic
      ∧ applyUpdate stTopicOnly
          [(StateKey.poem,
            (invokeEcho ("Write a short poem about " ++ "cats")).content)]
          StateKey.joke = stTopicOnly StateKey.joke) :=
  nodes_update_frame invokeEcho stTopicOnly
    ["Write a joke about " ++ "cats"]
    [(StateKey.joke, (invokeEcho ("Write a joke about " ++ "cats")).content)]
    ["Write a short poem about " ++ "cats"]
    [(StateKey.poem, (invokeEcho ("Write a short poem about " ++ "cats")).content)]
    rfl rfl

/-- Counterexample to claim C1 as stated: a streamed message whose
metadata field `"langgraph_node"` equals `"write_poem"` but whose content
is empty is not printed — the loop completes and prints nothing — so the
loop does not print a message's content "exactly when" the metadata field
compares equal to `"write_poem"`. -/
theorem stream_c1_counterexample :
    poemEmptyItem.metadata.lookup "langgraph_node" = some "write_poem"
    ∧ stream_filter_loop [poemEmptyItem] = ([], true) :=
  ⟨by decide, by decide⟩

/-- Claim C1 (amended): on any run of the streaming loop that completes
without a `KeyError`, the contents printed are exactly those of the
streamed messages with non-empty content whose metadata field
`"langgraph_node"` compares equal to `"write_poem"`, in stream order;
messages whose metadata names any other node are never printed. -/
theorem stream_prints_iff (items : List StreamItem)
    (h : (stream_filter_loop items).snd = true) :
    (stream_filter_loop items).fst
        = (items.filter printsItem).map StreamItem.content := by
  induction items with
  | nil => rfl
  | cons i rest ih =>
    by_cases hc : i.content = ""
    · have h' : (stream_filter_loop rest).snd = true := by
        simpa [stream_filter_loop, hc] using h
      have hpi : printsItem i = false := by simp [printsItem, hc]
      simp [stream_filter_loop, hc, List.filter_cons, hpi, ih h']
    · cases hn : i.metadata.lookup "langgraph_node" with
      | none => simp [stream_filter_loop, hc, hn] at h
      | some node =>
        by_cases hp : node = "write_poem"
        · subst hp
          have h' : (stream_filter_loop rest).snd = true := by
            simpa [stream_filter_loop, hc, hn] using h
          have hpi : printsItem i = true := by simp [printsItem, hc, hn]
          simp [stream_filter_loop, hc, hn, List.filter_cons, hpi, ih h']
        · have h' : (stream_filter_loop rest).snd = true := by
            simpa [stream_filter_loop, hc, hn, hp] using h
          have hpi : printsItem i = false := by simp [printsItem, hc, hn, hp]
          simp [stream_filter_loop, hc, hn, hp, List.filter_cons, hpi, ih h']

/-- Witness for `stream_prints_iff` on a concrete stream with one item from
each node: only the `write_poem` content is printed. -/
theorem stream_prints_iff_witness :
    (stream_filter_loop streamW).fst
        = (streamW.filter printsItem).map StreamItem.content :=
  stream_prints_iff streamW (by decide)

/-- Claim C7: under the precondition that every streamed metadata mapping
contains the key `"langgraph_node"`, the indexing
`metadata["langgraph_node"]` in the streaming loop never raises `KeyError`:
the loop runs to completion on every such yielded list. -/
theorem stream_loop_no_keyerror (items : List StreamItem)
    (h : ∀ i ∈ items, (i.metadata.lookup "langgraph_node").isSome = true) :
    (stream_filter_loop items).snd = true := by
  induction items with
  | nil => rfl
  | cons i rest ih =>
    have hi := h i (List.mem_cons_self i rest)
    have hrest : ∀ j ∈ rest, (j.metadata.lookup "langgraph_node").isSome = true :=
      fun j hj => h j (List.mem_cons_of_mem i hj)
    by_cases hc : i.content = ""
    · simpa [stream_filter_loop, hc] using ih hrest
    · obtain ⟨node, hn⟩ := Option.isSome_iff_exists.mp hi
      by_cases hp : node = "write_poem"
      · simp [stream_filter_loop, hc, hn, hp, ih hrest]
      · simp [stream_filter_loop, hc, hn, hp, ih hrest]

/-- Witness for `stream_loop_no_keyerror` on a concrete stream whose items
all carry the `langgraph_node` key. -/
theorem stream_loop_no_keyerror_witness :
    (stream_filter_loop streamW).snd = true :=
  stream_loop_no_keyerror streamW
    (by intro i hi; simp [streamW, List.mem_cons] at hi
        rcases hi with rfl | rfl <;> decide)

/-- Claim C9: the print condition additionally requires `msg.content` to
be truthy: a streamed message produced by `write_poem` whose content is
empty prints nothing — the loop's output and completion status are exactly
those of the stream without that message — even though its metadata
matches the node filter. -/
theorem stream_empty_content_not_printed (i : StreamItem)
    (rest : List StreamItem) (hc : i.content = "")
    (_hm : i.metadata.lookup "langgraph_node" = some "write_poem") :
    stream_filter_loop (i :: rest) = stream_filter_loop rest := by
  simp [stream_filter_loop, hc]

/-- Witness for `stream_empty_content_not_printed`: prepending an empty
`write_poem` message to a concrete stream changes nothing. -/
theorem stream_empty_content_not_printed_witness :
    stream_filter_loop (poemEmptyItem :: streamW) = stream_filter_loop streamW :=
  stream_empty_content_not_printed poemEmptyItem streamW (by decide) (by decide)
